import Mathlib

/-!
Shallow embedding of the effect timeline engine and frame compositor of the
visualizer-thumbnail-generator repository (src/backend/effect_engine.py and
src/backend/video_renderer.py).  Floating-point numbers are modelled as
rationals; Python `int()` truncation is modelled explicitly.
-/

namespace VTG

/-- RGB colour triple (effect_engine.py uses `Tuple[int, int, int]`). -/
abbrev Color := ℕ × ℕ × ℕ

/-- Python `int()` applied to a float: truncation toward zero. -/
def pyTrunc (q : ℚ) : ℤ := if 0 ≤ q then ⌊q⌋ else -⌊-q⌋

/-- `EffectToggle` from effect_engine.py: enabled state plus 0-1 intensity. -/
structure EffectToggle where
  enabled : Bool
  intensity : ℚ
deriving DecidableEq

/-- The fields of `AudioFeatures` (audio_analysis.py) consumed by
`calculate_effect_parameters`; the remaining analysis fields are never read
by the effect engine and are omitted. -/
structure AudioFeatures where
  duration : ℚ
  beat_times : List ℚ
  beat_strengths : List ℚ
  onset_times : List ℚ
  onset_strengths : List ℚ
deriving DecidableEq

/-- `SubjectBounds` from effect_engine.py (normalized rectangle). -/
structure SubjectBounds where
  x : ℚ := 1/4
  y : ℚ := 1/4
  w : ℚ := 1/2
  h : ℚ := 1/2
deriving DecidableEq

def SubjectBounds.center_x (b : SubjectBounds) : ℚ := b.x + b.w / 2

def SubjectBounds.center_y (b : SubjectBounds) : ℚ := b.y + b.h / 2

/-- `ImageContext` from effect_engine.py; hex colour strings are modelled
already decoded to RGB triples (`hex_to_rgb` is pure decoding). -/
structure ImageContext where
  bounds : SubjectBounds := {}
  glow_points : List (ℚ × ℚ × ℚ) := []
  colors : List Color := [(255, 255, 255), (255, 215, 0), (255, 107, 53)]
  mood : String := "neutral"

/-- `EffectToggles` from effect_engine.py: all thirteen user toggles. -/
structure EffectToggles where
  element_glow : EffectToggle := ⟨true, 1/2⟩
  element_scale : EffectToggle := ⟨true, 3/10⟩
  neon_outline : EffectToggle := ⟨false, 1/2⟩
  echo_trail : EffectToggle := ⟨false, 2/5⟩
  particle_burst : EffectToggle := ⟨true, 1/2⟩
  energy_trails : EffectToggle := ⟨false, 2/5⟩
  light_flares : EffectToggle := ⟨false, 3/10⟩
  glitch : EffectToggle := ⟨false, 3/10⟩
  ripple_wave : EffectToggle := ⟨false, 2/5⟩
  film_grain : EffectToggle := ⟨false, 1/5⟩
  strobe_flash : EffectToggle := ⟨false, 3/10⟩
  vignette_pulse : EffectToggle := ⟨true, 2/5⟩
  background_dim : EffectToggle := ⟨true, 3/10⟩

/-! ## Trigger extraction (calculate_effect_parameters, per-effect blocks) -/

/-- ELEMENT GLOW block: threshold `0.3 * (1 - intensity)`, inclusive. -/
def glowTriggers (tog : EffectToggle) (af : AudioFeatures) : List (ℚ × ℚ) :=
  if tog.enabled then
    (af.beat_times.zip af.beat_strengths).filterMap (fun ts =>
      if 0.3 * (1 - tog.intensity) ≤ ts.2 then some (ts.1, ts.2 * tog.intensity) else none)
  else []

/-- ELEMENT SCALE block: every beat triggers (no threshold). -/
def scaleTriggers (tog : EffectToggle) (af : AudioFeatures) : List (ℚ × ℚ) :=
  if tog.enabled then
    (af.beat_times.zip af.beat_strengths).map (fun ts => (ts.1, ts.2 * tog.intensity))
  else []

/-- NEON OUTLINE block: threshold 0.4, inclusive. -/
def outlineTriggers (tog : EffectToggle) (af : AudioFeatures) : List (ℚ × ℚ) :=
  if tog.enabled then
    (af.beat_times.zip af.beat_strengths).filterMap (fun ts =>
      if 0.4 ≤ ts.2 then some (ts.1, ts.2 * tog.intensity) else none)
  else []

/-- PARTICLE BURST block: threshold 0.5, inclusive ("only on strong beats"). -/
def burstTriggers (tog : EffectToggle) (af : AudioFeatures) : List (ℚ × ℚ) :=
  if tog.enabled then
    (af.beat_times.zip af.beat_strengths).filterMap (fun ts =>
      if 0.5 ≤ ts.2 then some (ts.1, ts.2 * tog.intensity) else none)
  else []

/-- LIGHT FLARES block: threshold 0.6, inclusive. -/
def flareTriggers (tog : EffectToggle) (af : AudioFeatures) : List (ℚ × ℚ) :=
  if tog.enabled then
    (af.beat_times.zip af.beat_strengths).filterMap (fun ts =>
      if 0.6 ≤ ts.2 then some (ts.1, ts.2 * tog.intensity) else none)
  else []

/-- Stride used for glitch down-sampling: `max(1, int(4 - intensity * 3))`. -/
def glitchStride (intensity : ℚ) : ℕ := max 1 (pyTrunc (4 - intensity * 3)).toNat

/-- The `for i, (onset_time, strength) in enumerate(strong_onsets)` loop of the
GLITCH block: keep every element whose index is a multiple of the stride and
attach duration `0.05 + strength * 0.1` and scaled strength. -/
def glitchLoop (intensity : ℚ) (stride : ℕ) : ℕ → List (ℚ × ℚ) → List (ℚ × ℚ × ℚ)
  | _, [] => []
  | i, ts :: rest =>
    if i % stride = 0 then
      (ts.1, 0.05 + ts.2 * 0.1, ts.2 * intensity) :: glitchLoop intensity stride (i + 1) rest
    else glitchLoop intensity stride (i + 1) rest

/-- GLITCH block: onsets with strength strictly above 0.7, down-sampled. -/
def glitchTriggers (tog : EffectToggle) (af : AudioFeatures) : List (ℚ × ℚ × ℚ) :=
  if tog.enabled then
    glitchLoop tog.intensity (glitchStride tog.intensity) 0
      ((af.onset_times.zip af.onset_strengths).filter (fun ts => decide (0.7 < ts.2)))
  else []

/-- RIPPLE WAVE block: threshold 0.5, inclusive. -/
def rippleTriggers (tog : EffectToggle) (af : AudioFeatures) : List (ℚ × ℚ) :=
  if tog.enabled then
    (af.beat_times.zip af.beat_strengths).filterMap (fun ts =>
      if 0.5 ≤ ts.2 then some (ts.1, ts.2 * tog.intensity) else none)
  else []

/-- STROBE FLASH block: threshold 0.8, inclusive; only the time is recorded. -/
def strobeTriggers (tog : EffectToggle) (af : AudioFeatures) : List ℚ :=
  if tog.enabled then
    (af.beat_times.zip af.beat_strengths).filterMap (fun ts =>
      if 0.8 ≤ ts.2 then some ts.1 else none)
  else []

/-- VIGNETTE PULSE block: every beat triggers (no threshold). -/
def vignetteTriggers (tog : EffectToggle) (af : AudioFeatures) : List (ℚ × ℚ) :=
  if tog.enabled then
    (af.beat_times.zip af.beat_strengths).map (fun ts => (ts.1, ts.2 * tog.intensity))
  else []

/-! ## Effect parameter records (effect_engine.py dataclasses) -/

structure ElementGlowParams where
  enabled : Bool
  intensity : ℚ
  color : Color
  radius : ℚ
  pulse_triggers : List (ℚ × ℚ)
deriving DecidableEq

structure ElementScaleParams where
  enabled : Bool
  intensity : ℚ
  base_scale : ℚ
  max_scale : ℚ
  triggers : List (ℚ × ℚ)
deriving DecidableEq

structure NeonOutlineParams where
  enabled : Bool
  intensity : ℚ
  color : Color
  width : ℚ
  glow_radius : ℚ
  pulse_triggers : List (ℚ × ℚ)
deriving DecidableEq

structure EchoTrailParams where
  enabled : Bool
  intensity : ℚ
  trail_count : ℕ
  trail_spacing : ℚ
  opacity_decay : ℚ
deriving DecidableEq

structure ParticleBurstParams where
  enabled : Bool
  intensity : ℚ
  particle_count : ℕ
  colors : List Color
  size_range : ℚ × ℚ
  speed : ℚ
  lifetime : ℚ
  triggers : List (ℚ × ℚ)
  origin_x : ℚ
  origin_y : ℚ
deriving DecidableEq

structure EnergyTrailsParams where
  enabled : Bool
  intensity : ℚ
  trail_count : ℕ
  colors : List Color
  width : ℚ
  orbit_radius : ℚ
  speed : ℚ
  center_x : ℚ
  center_y : ℚ
deriving DecidableEq

structure LightFlaresParams where
  enabled : Bool
  intensity : ℚ
  flare_points : List (ℚ × ℚ)
  colors : List Color
  size : ℚ
  triggers : List (ℚ × ℚ)
deriving DecidableEq

structure GlitchParams where
  enabled : Bool
  intensity : ℚ
  chromatic_aberration : ℚ
  rgb_split : ℚ
  scan_lines : Bool
  scan_line_opacity : ℚ
  slice_displacement : Bool
  triggers : List (ℚ × ℚ × ℚ)
deriving DecidableEq

structure RippleWaveParams where
  enabled : Bool
  intensity : ℚ
  center_x : ℚ
  center_y : ℚ
  wavelength : ℚ
  amplitude : ℚ
  speed : ℚ
  triggers : List (ℚ × ℚ)
deriving DecidableEq

structure FilmGrainParams where
  enabled : Bool
  intensity : ℚ
  grain_size : ℚ
  color_variation : ℚ
deriving DecidableEq

structure StrobeFlashParams where
  enabled : Bool
  intensity : ℚ
  flash_duration : ℚ
  color : Color
  triggers : List ℚ
deriving DecidableEq

structure VignettePulseParams where
  enabled : Bool
  intensity : ℚ
  base_strength : ℚ
  pulse_strength : ℚ
  triggers : List (ℚ × ℚ)
deriving DecidableEq

structure BackgroundDimParams where
  enabled : Bool
  intensity : ℚ
  dim_amount : ℚ
  blur_amount : ℚ
deriving DecidableEq

/-- `EffectParameters`: all effect parameters for a video. -/
structure EffectParameters where
  duration : ℚ
  fps : ℕ
  subject_bounds : SubjectBounds
  element_glow : ElementGlowParams
  element_scale : ElementScaleParams
  neon_outline : NeonOutlineParams
  echo_trail : EchoTrailParams
  particle_burst : ParticleBurstParams
  energy_trails : EnergyTrailsParams
  light_flares : LightFlaresParams
  glitch : GlitchParams
  ripple_wave : RippleWaveParams
  film_grain : FilmGrainParams
  strobe_flash : StrobeFlashParams
  vignette_pulse : VignettePulseParams
  background_dim : BackgroundDimParams

/-- `calculate_effect_parameters` (effect_engine.py lines 257-524): all
thirteen blocks, with the linear intensity maps transcribed verbatim. -/
def calculateEffectParameters (audio_features : AudioFeatures)
    (toggles : EffectToggles) (image_context : Option ImageContext) :
    EffectParameters :=
  let ctx := image_context.getD {}
  let bounds := ctx.bounds
  let colors_rgb := if ctx.colors = [] then [((255:ℕ), (200:ℕ), (100:ℕ))] else ctx.colors.take 5
  let primary_color := colors_rgb.headD (255, 200, 100)
  { duration := audio_features.duration
    fps := 30
    subject_bounds := bounds
    element_glow :=
      { enabled := toggles.element_glow.enabled
        intensity := toggles.element_glow.intensity
        color := primary_color
        radius := 30 + toggles.element_glow.intensity * 70
        pulse_triggers := glowTriggers toggles.element_glow audio_features }
    element_scale :=
      { enabled := toggles.element_scale.enabled
        intensity := toggles.element_scale.intensity
        base_scale := 1
        max_scale := 1 + toggles.element_scale.intensity * 0.15
        triggers := scaleTriggers toggles.element_scale audio_features }
    neon_outline :=
      { enabled := toggles.neon_outline.enabled
        intensity := toggles.neon_outline.intensity
        color := (colors_rgb.drop 1).headD (0, 255, 255)
        width := 2 + toggles.neon_outline.intensity * 4
        glow_radius := 5 + toggles.neon_outline.intensity * 15
        pulse_triggers := outlineTriggers toggles.neon_outline audio_features }
    echo_trail :=
      { enabled := toggles.echo_trail.enabled
        intensity := toggles.echo_trail.intensity
        trail_count := (3 + pyTrunc (toggles.echo_trail.intensity * 5)).toNat
        trail_spacing := 0.03 + (1 - toggles.echo_trail.intensity) * 0.05
        opacity_decay := 0.6 + (1 - toggles.echo_trail.intensity) * 0.2 }
    particle_burst :=
      { enabled := toggles.particle_burst.enabled
        intensity := toggles.particle_burst.intensity
        particle_count := (pyTrunc (30 + toggles.particle_burst.intensity * 70)).toNat
        colors := colors_rgb.take 3
        size_range := (2 + toggles.particle_burst.intensity * 2,
                       8 + toggles.particle_burst.intensity * 8)
        speed := 150 + toggles.particle_burst.intensity * 150
        lifetime := 0.8 + toggles.particle_burst.intensity * 0.6
        triggers := burstTriggers toggles.particle_burst audio_features
        origin_x := bounds.center_x
        origin_y := bounds.center_y }
    energy_trails :=
      { enabled := toggles.energy_trails.enabled
        intensity := toggles.energy_trails.intensity
        trail_count := (4 + pyTrunc (toggles.energy_trails.intensity * 8)).toNat
        colors := colors_rgb.take 2
        width := 1 + toggles.energy_trails.intensity * 3
        orbit_radius := 50 + toggles.energy_trails.intensity * 100
        speed := 0.5 + toggles.energy_trails.intensity * 1
        center_x := bounds.center_x
        center_y := bounds.center_y }
    light_flares :=
      { enabled := toggles.light_flares.enabled
        intensity := toggles.light_flares.intensity
        flare_points :=
          if ctx.glow_points = [] then [(bounds.center_x, bounds.center_y)]
          else ctx.glow_points.map (fun gp => (gp.1, gp.2.1))
        colors := (255, 255, 200) :: colors_rgb.take 1
        size := 50 + toggles.light_flares.intensity * 100
        triggers := flareTriggers toggles.light_flares audio_features }
    glitch :=
      { enabled := toggles.glitch.enabled
        intensity := toggles.glitch.intensity
        chromatic_aberration := 3 + toggles.glitch.intensity * 10
        rgb_split := 2 + toggles.glitch.intensity * 6
        scan_lines := decide (0.3 < toggles.glitch.intensity)
        scan_line_opacity := 0.05 + toggles.glitch.intensity * 0.1
        slice_displacement := decide (0.4 < toggles.glitch.intensity)
        triggers := glitchTriggers toggles.glitch audio_features }
    ripple_wave :=
      { enabled := toggles.ripple_wave.enabled
        intensity := toggles.ripple_wave.intensity
        center_x := bounds.center_x
        center_y := bounds.center_y
        wavelength := 30 + (1 - toggles.ripple_wave.intensity) * 40
        amplitude := 5 + toggles.ripple_wave.intensity * 15
        speed := 150 + toggles.ripple_wave.intensity * 150
        triggers := rippleTriggers toggles.ripple_wave audio_features }
    film_grain :=
      { enabled := toggles.film_grain.enabled
        intensity := toggles.film_grain.intensity
        grain_size := 1 + toggles.film_grain.intensity * 2
        color_variation := 0.05 + toggles.film_grain.intensity * 0.15 }
    strobe_flash :=
      { enabled := toggles.strobe_flash.enabled
        intensity := toggles.strobe_flash.intensity
        flash_duration := 0.03 + toggles.strobe_flash.intensity * 0.05
        color := (255, 255, 255)
        triggers := strobeTriggers toggles.strobe_flash audio_features }
    vignette_pulse :=
      { enabled := toggles.vignette_pulse.enabled
        intensity := toggles.vignette_pulse.intensity
        base_strength := 0.2 + toggles.vignette_pulse.intensity * 0.2
        pulse_strength := 0.1 + toggles.vignette_pulse.intensity * 0.2
        triggers := vignetteTriggers toggles.vignette_pulse audio_features }
    background_dim :=
      { enabled := toggles.background_dim.enabled
        intensity := toggles.background_dim.intensity
        dim_amount := 0.2 + toggles.background_dim.intensity * 0.4
        blur_amount := 1 + toggles.background_dim.intensity * 4 } }

/-! ## Temporal envelope evaluator (get_effect_value_at_time, per-effect blocks) -/

/-- ELEMENT GLOW block of `get_effect_value_at_time`: the
`element_glow_intensity` value. -/
def elementGlowIntensityAt (glow : ElementGlowParams) (time : ℚ) : ℚ :=
  if glow.enabled then
    (glow.pulse_triggers.foldl (fun glow_intensity tr =>
      let dt := time - tr.1
      if 0 ≤ dt ∧ dt < 0.3 then
        let pulse := if dt < 0.05 then (dt / 0.05) * tr.2
                     else tr.2 * (1 - (dt - 0.05) / 0.25)
        max glow_intensity (0.3 + pulse * 0.7)
      else glow_intensity) 0.3) * glow.intensity
  else 0

/-- ELEMENT SCALE block of `get_effect_value_at_time`: the `element_scale`
value (0.05 s attack, quadratic ease-out decay over a 0.2 s window). -/
def elementScaleAt (scale : ElementScaleParams) (time : ℚ) : ℚ :=
  if scale.enabled then
    scale.triggers.foldl (fun current_scale tr =>
      let dt := time - tr.1
      if 0 ≤ dt ∧ dt < 0.2 then
        let scale_add :=
          if dt < 0.05 then (dt / 0.05) * (scale.max_scale - scale.base_scale) * tr.2
          else
            let progress := (dt - 0.05) / 0.15
            (1 - progress * progress) * (scale.max_scale - scale.base_scale) * tr.2
        max current_scale (scale.base_scale + scale_add)
      else current_scale) scale.base_scale
  else 1

/-- NEON OUTLINE block of `get_effect_value_at_time`: the
`neon_outline_intensity` value. -/
def neonOutlineIntensityAt (outline : NeonOutlineParams) (time : ℚ) : ℚ :=
  if outline.enabled then
    (outline.pulse_triggers.foldl (fun outline_intensity tr =>
      let dt := time - tr.1
      if 0 ≤ dt ∧ dt < 0.25 then
        let pulse := if dt < 0.03 then dt / 0.03 else 1 - (dt - 0.03) / 0.22
        max outline_intensity (0.5 + pulse * 0.5 * tr.2)
      else outline_intensity) 0.5) * outline.intensity
  else 0

/-- An active-burst descriptor as built in the PARTICLE BURST block: a python
dict with exactly the keys progress/strength/origin_x/origin_y, modelled as
a string-keyed association list. -/
def activeBurstEntry (progress strength origin_x origin_y : ℚ) :
    List (String × ℚ) :=
  [("progress", progress), ("strength", strength),
   ("origin_x", origin_x), ("origin_y", origin_y)]

/-- PARTICLE BURST block of `get_effect_value_at_time`: the `particle_bursts`
value (list of active burst descriptors). -/
def particleBurstsAt (burst : ParticleBurstParams) (time : ℚ) :
    List (List (String × ℚ)) :=
  if burst.enabled then
    burst.triggers.filterMap (fun tr =>
      let dt := time - tr.1
      if 0 ≤ dt ∧ dt < burst.lifetime then
        some (activeBurstEntry (dt / burst.lifetime) tr.2 burst.origin_x burst.origin_y)
      else none)
  else []

/-- LIGHT FLARES block of `get_effect_value_at_time`: the
`light_flares_intensity` value. -/
def lightFlaresIntensityAt (flares : LightFlaresParams) (time : ℚ) : ℚ :=
  if flares.enabled then
    (flares.triggers.foldl (fun flare_intensity tr =>
      let dt := time - tr.1
      if 0 ≤ dt ∧ dt < 0.4 then
        let pulse := if dt < 0.05 then dt / 0.05 else 1 - (dt - 0.05) / 0.35
        max flare_intensity (pulse * tr.2)
      else flare_intensity) 0) * flares.intensity
  else 0

/-- An active-ripple descriptor from the RIPPLE WAVE block. -/
structure RippleDesc where
  radius : ℚ
  amplitude : ℚ
  wavelength : ℚ
  center_x : ℚ
  center_y : ℚ
deriving DecidableEq

/-- RIPPLE WAVE block of `get_effect_value_at_time`: the `ripple_waves`
value (ripples last 2 seconds, radius grows at `speed`, amplitude fades). -/
def rippleWavesAt (ripple : RippleWaveParams) (time : ℚ) : List RippleDesc :=
  if ripple.enabled then
    ripple.triggers.filterMap (fun tr =>
      let dt := time - tr.1
      if 0 ≤ dt ∧ dt < 2 then
        some { radius := dt * ripple.speed
               amplitude := ripple.amplitude * tr.2 * (1 - dt / 2)
               wavelength := ripple.wavelength
               center_x := ripple.center_x
               center_y := ripple.center_y }
      else none)
  else []

/-- STROBE FLASH block of `get_effect_value_at_time`: the `strobe_active`
flag (half-open window `[trigger, trigger + flash_duration)`). -/
def strobeActiveAt (strobe : StrobeFlashParams) (time : ℚ) : Bool :=
  strobe.enabled &&
    strobe.triggers.any (fun trigger_time =>
      decide (trigger_time ≤ time) && decide (time < trigger_time + strobe.flash_duration))

/-- STROBE FLASH block: the `strobe_intensity` value. -/
def strobeIntensityAt (strobe : StrobeFlashParams) (time : ℚ) : ℚ :=
  if strobeActiveAt strobe time then strobe.intensity else 0

/-- VIGNETTE PULSE block of `get_effect_value_at_time`: the
`vignette_strength` value (baseline plus max pulse). -/
def vignetteStrengthAt (vignette : VignettePulseParams) (time : ℚ) : ℚ :=
  if vignette.enabled then
    vignette.triggers.foldl (fun vignette_strength tr =>
      let dt := time - tr.1
      if 0 ≤ dt ∧ dt < 0.3 then
        let pulse := if dt < 0.05 then dt / 0.05 else 1 - (dt - 0.05) / 0.25
        max vignette_strength
          (vignette.base_strength + vignette.pulse_strength * pulse * tr.2)
      else vignette_strength) vignette.base_strength
  else 0

/-- ECHO TRAIL block of `get_effect_value_at_time`: the `echo_trail_count`
value (the trail count, or 0 when disabled). -/
def echoTrailCountAt (echo : EchoTrailParams) : ℕ :=
  if echo.enabled then echo.trail_count else 0

/-! ## video_renderer.py: particle system -/

/-- `Particle` dataclass from video_renderer.py. -/
structure Particle where
  x : ℚ
  y : ℚ
  vx : ℚ
  vy : ℚ
  size : ℚ
  color : Color
  alpha : ℚ
  birth_time : ℚ
  lifetime : ℚ
deriving DecidableEq

/-- The body of a single spawn iteration of
`ParticleSystem.spawn_burst_from_bounds`.  The source draws a uniform angle
and applies `math.cos`/`math.sin`; those two direction components are taken
as inputs (`cosA`, `sinA`), as are the four uniform draws in `[0,1)` used for
velocity, size, alpha and lifetime jitter, and the chosen colour. -/
def spawnParticleFromBounds (bounds_x bounds_y bounds_w bounds_h : ℚ)
    (size_lo size_hi speed lifetime time width height : ℚ)
    (cosA sinA rVel rSize rAlpha rLife : ℚ) (color : Color) : Particle :=
  let center_x := (bounds_x + bounds_w / 2) * width
  let center_y := (bounds_y + bounds_h / 2) * height
  let radius_x := (bounds_w / 2) * width * 1.1
  let radius_y := (bounds_h / 2) * height * 1.1
  let velocity := speed * (0.5 + rVel * 0.5)
  { x := center_x + cosA * radius_x
    y := center_y + sinA * radius_y
    vx := cosA * velocity
    vy := sinA * velocity
    size := size_lo + rSize * (size_hi - size_lo)
    color := color
    alpha := 0.8 + rAlpha * 0.2
    birth_time := time
    lifetime := lifetime * (0.7 + rLife * 0.3) }

/-- One particle's mutation inside `ParticleSystem.update`: position advanced
by the old velocity, then gravity (+50·dt on vy) and drag (×0.98) applied. -/
def updateParticle (dt : ℚ) (p : Particle) : Particle :=
  { p with
    x := p.x + p.vx * dt
    y := p.y + p.vy * dt
    vx := p.vx * 0.98
    vy := (p.vy + 50 * dt) * 0.98 }

/-- `ParticleSystem.update(time, dt)`: keep exactly the particles whose age
`time - birth_time` is below their lifetime, advancing each survivor. -/
def particleSystemUpdate (time dt : ℚ) (particles : List Particle) :
    List Particle :=
  (particles.filter (fun p => decide (time - p.birth_time < p.lifetime))).map
    (updateParticle dt)

/-! ## video_renderer.py: echo frame buffer (render_video lines 291-298) -/

/-- One frame's worth of echo-buffer bookkeeping in `render_video`: when the
effect is enabled the clean frame is appended and the oldest entry popped if
the buffer exceeds `trail_count + 2`; when disabled the buffer is cleared. -/
def echoBufferStep {Frame : Type} (enabled : Bool) (trail_count : ℕ)
    (echo_frames : List Frame) (frame : Frame) : List Frame :=
  if enabled then
    let pushed := echo_frames ++ [frame]
    if trail_count + 2 < pushed.length then pushed.drop 1 else pushed
  else []

/-! ## video_renderer.py: burst spawning reads (render_video lines 316-333) -/

/-- Python `dict.get(key, default)` on a string-keyed association list. -/
def dictGetD (d : List (String × ℚ)) (key : String) (default : ℚ) : ℚ :=
  match d.find? (fun kv => kv.1 == key) with
  | some kv => kv.2
  | none => default

/-- The de-duplication key built in `render_video`:
`(burst.get("bounds_x", 0.25), burst.get("bounds_y", 0.25), i)`. -/
def burstDedupKey (burst : List (String × ℚ)) (i : ℕ) : ℚ × ℚ × ℕ :=
  (dictGetD burst "bounds_x" 0.25, dictGetD burst "bounds_y" 0.25, i)

/-- The bounds rectangle `render_video` passes to
`spawn_burst_from_bounds`, read from the descriptor with defaults. -/
def burstSpawnBounds (burst : List (String × ℚ)) : ℚ × ℚ × ℚ × ℚ :=
  (dictGetD burst "bounds_x" 0.25, dictGetD burst "bounds_y" 0.25,
   dictGetD burst "bounds_w" 0.5, dictGetD burst "bounds_h" 0.5)

/-! ## video_renderer.py: film grain (apply_film_grain lines 1025-1049) -/

/-- `np.clip(·, 0, 255)` on one channel value. -/
def clip255 (z : ℤ) : ℤ := max 0 (min 255 z)

/-- The pixel arithmetic of `apply_film_grain`: per-channel Gaussian noise
(drawn from the global NumPy generator, then cast to int16) added to the
image and clipped.  The noise samples are an explicit input list. -/
def applyFilmGrain (img noise : List ℤ) : List ℤ :=
  (img.zip noise).map (fun p => clip255 (p.1 + p.2))

/-- The two randomness sources of the frame pipeline: the `random` module
stream (particles, glitch slices) and the NumPy stream (film grain).
A seed for the particle system fixes only the first. -/
structure FrameRandomness where
  pyStream : List ℚ
  npStream : List ℤ

/-- The per-frame layer pass restricted to its randomness consumption: the
film-grain layer (layer 11) is the only one reading the NumPy stream, and it
runs exactly when the film-grain toggle is enabled. -/
def grainLayerOutput (grainEnabled : Bool) (img : List ℤ)
    (rnd : FrameRandomness) : List ℤ :=
  if grainEnabled then applyFilmGrain img rnd.npStream else img

/-! ## video_renderer.py: encoder invocation (render_video lines 427-453) -/

/-- Captured outcome of the ffmpeg subprocess (`subprocess.run` with
`capture_output=True, text=True`). -/
structure ProcResult where
  returncode : ℤ
  stdout : String
  stderr : String

/-- The encoder-failure handling of `render_video`: on a non-zero exit the
job raises `RuntimeError` carrying the diagnostic text (stderr, else stdout,
else a fixed fallback); on success the output path is returned. -/
def ffmpegOutcome (result : ProcResult) (output_path : String) :
    Except String String :=
  if result.returncode ≠ 0 then
    let error_msg :=
      if result.stderr ≠ "" then result.stderr
      else if result.stdout ≠ "" then result.stdout
      else "Unknown FFmpeg error"
    Except.error
      ("FFmpeg failed (exit code " ++ toString result.returncode ++ "): " ++ error_msg)
  else Except.ok output_path

/-! ## Spec-side reference definitions (for refinement claims) -/

/-- Reference reading of "down-sample onset events by a stride": keep the
first element and every stride-th element after it, via a countdown of the
remaining skips. -/
def takeEveryStride {α : Type} (stride : ℕ) : ℕ → List α → List α
  | _, [] => []
  | r, a :: rest =>
    if r = 0 then a :: takeEveryStride stride (stride - 1) rest
    else takeEveryStride stride (r - 1) rest

/-- Modelled from the spec words for the glitch stride:
`stride = max(1, round(4 − 3·intensity))` with mathematical rounding. -/
def glitchStrideRound (intensity : ℚ) : ℕ := max 1 (round (4 - 3 * intensity)).toNat

/-- The glitch trigger extraction as the spec words it, with a rounded
stride (everything else as in the code). -/
def glitchTriggersRoundSpec (tog : EffectToggle) (af : AudioFeatures) :
    List (ℚ × ℚ × ℚ) :=
  if tog.enabled then
    glitchLoop tog.intensity (glitchStrideRound tog.intensity) 0
      ((af.onset_times.zip af.onset_strengths).filter (fun ts => decide (0.7 < ts.2)))
  else []

/-- The amended glitch claim as a reference function: above-threshold onsets
down-sampled by the truncated stride `max(1, int(4 − 3·intensity))`, each
selected trigger carrying duration `0.05 + strength·0.1` and strength scaled
by the toggle intensity. -/
def glitchTriggersAmended (tog : EffectToggle) (af : AudioFeatures) :
    List (ℚ × ℚ × ℚ) :=
  if tog.enabled then
    (takeEveryStride (glitchStride tog.intensity) 0
        ((af.onset_times.zip af.onset_strengths).filter (fun ts => decide (0.7 < ts.2)))).map
      (fun ts => (ts.1, 0.05 + ts.2 * 0.1, ts.2 * tog.intensity))
  else []

/-! ## Claim theorems -/

/-- C1: with element_scale enabled at intensity 1.0 and a single beat trigger
at t = 1.0 s with strength 0.8, the evaluated `element_scale` value at
t = 1.02 s (inside the 0.05 s attack) lies strictly between 1.0 and 1.15, and
at t = 1.3 s (past the 0.2 s window) it equals exactly 1.0. -/
theorem c1_element_scale_scenario_a :
    1 < elementScaleAt (calculateEffectParameters
        ⟨30, [1], [0.8], [], []⟩ { element_scale := ⟨true, 1⟩ } none).element_scale 1.02 ∧
    elementScaleAt (calculateEffectParameters
        ⟨30, [1], [0.8], [], []⟩ { element_scale := ⟨true, 1⟩ } none).element_scale 1.02 < 1.15 ∧
    elementScaleAt (calculateEffectParameters
        ⟨30, [1], [0.8], [], []⟩ { element_scale := ⟨true, 1⟩ } none).element_scale 1.3 = 1 := by
  norm_num [calculateEffectParameters, scaleTriggers, elementScaleAt, List.foldl, max_def]

/-- C2: an effect whose toggle is disabled gets an empty trigger list from the
builder, and the evaluator returns its off sentinel at every query time: zero
intensity for glow/outline/flares/strobe/vignette, scale 1.0, and empty lists
for particle bursts and ripples. -/
theorem c2_disabled_toggle_off_sentinel (af : AudioFeatures)
    (toggles : EffectToggles) (ctx : Option ImageContext) (time : ℚ) :
    (toggles.element_glow.enabled = false →
      (calculateEffectParameters af toggles ctx).element_glow.pulse_triggers = [] ∧
      elementGlowIntensityAt (calculateEffectParameters af toggles ctx).element_glow time = 0) ∧
    (toggles.element_scale.enabled = false →
      (calculateEffectParameters af toggles ctx).element_scale.triggers = [] ∧
      elementScaleAt (calculateEffectParameters af toggles ctx).element_scale time = 1) ∧
    (toggles.neon_outline.enabled = false →
      (calculateEffectParameters af toggles ctx).neon_outline.pulse_triggers = [] ∧
      neonOutlineIntensityAt (calculateEffectParameters af toggles ctx).neon_outline time = 0) ∧
    (toggles.particle_burst.enabled = false →
      (calculateEffectParameters af toggles ctx).particle_burst.triggers = [] ∧
      particleBurstsAt (calculateEffectParameters af toggles ctx).particle_burst time = []) ∧
    (toggles.light_flares.enabled = false →
      (calculateEffectParameters af toggles ctx).light_flares.triggers = [] ∧
      lightFlaresIntensityAt (calculateEffectParameters af toggles ctx).light_flares time = 0) ∧
    (toggles.glitch.enabled = false →
      (calculateEffectParameters af toggles ctx).glitch.triggers = []) ∧
    (toggles.ripple_wave.enabled = false →
      (calculateEffectParameters af toggles ctx).ripple_wave.triggers = [] ∧
      rippleWavesAt (calculateEffectParameters af toggles ctx).ripple_wave time = []) ∧
    (toggles.strobe_flash.enabled = false →
      (calculateEffectParameters af toggles ctx).strobe_flash.triggers = [] ∧
      strobeIntensityAt (calculateEffectParameters af toggles ctx).strobe_flash time = 0) ∧
    (toggles.vignette_pulse.enabled = false →
      (calculateEffectParameters af toggles ctx).vignette_pulse.triggers = [] ∧
      vignetteStrengthAt (calculateEffectParameters af toggles ctx).vignette_pulse time = 0) := by
  refine ⟨fun h => ⟨?_, ?_⟩, fun h => ⟨?_, ?_⟩, fun h => ⟨?_, ?_⟩, fun h => ⟨?_, ?_⟩,
    fun h => ⟨?_, ?_⟩, fun h => ?_, fun h => ⟨?_, ?_⟩, fun h => ⟨?_, ?_⟩,
    fun h => ⟨?_, ?_⟩⟩ <;>
  simp [calculateEffectParameters, glowTriggers, scaleTriggers, outlineTriggers,
    burstTriggers, flareTriggers, glitchTriggers, rippleTriggers, strobeTriggers,
    vignetteTriggers, elementGlowIntensityAt, elementScaleAt, neonOutlineIntensityAt,
    particleBurstsAt, lightFlaresIntensityAt, rippleWavesAt, strobeIntensityAt,
    strobeActiveAt, vignetteStrengthAt, h]

/-- C2 witness: all toggles disabled, one beat, query time 0.5. -/
theorem c2_disabled_toggle_off_sentinel_witness :
    elementGlowIntensityAt (calculateEffectParameters ⟨30, [1], [0.9], [], []⟩
        ⟨⟨false, 1⟩, ⟨false, 1⟩, ⟨false, 1⟩, ⟨false, 1⟩, ⟨false, 1⟩, ⟨false, 1⟩,
         ⟨false, 1⟩, ⟨false, 1⟩, ⟨false, 1⟩, ⟨false, 1⟩, ⟨false, 1⟩, ⟨false, 1⟩,
         ⟨false, 1⟩⟩ none).element_glow (1/2) = 0 ∧
    elementScaleAt (calculateEffectParameters ⟨30, [1], [0.9], [], []⟩
        ⟨⟨false, 1⟩, ⟨false, 1⟩, ⟨false, 1⟩, ⟨false, 1⟩, ⟨false, 1⟩, ⟨false, 1⟩,
         ⟨false, 1⟩, ⟨false, 1⟩, ⟨false, 1⟩, ⟨false, 1⟩, ⟨false, 1⟩, ⟨false, 1⟩,
         ⟨false, 1⟩⟩ none).element_scale (1/2) = 1 := by
  have h := c2_disabled_toggle_off_sentinel ⟨30, [1], [0.9], [], []⟩
    ⟨⟨false, 1⟩, ⟨false, 1⟩, ⟨false, 1⟩, ⟨false, 1⟩, ⟨false, 1⟩, ⟨false, 1⟩,
     ⟨false, 1⟩, ⟨false, 1⟩, ⟨false, 1⟩, ⟨false, 1⟩, ⟨false, 1⟩, ⟨false, 1⟩,
     ⟨false, 1⟩⟩ none (1/2)
  exact ⟨(h.1 rfl).2, (h.2.1 rfl).2⟩

/-- C3: one render-loop step of echo-buffer bookkeeping keeps the buffer at
no more than `trail_count + 2` snapshots (evicting the oldest when the cap
would be exceeded), and a step with the effect disabled empties the buffer
(so it stays empty while the effect remains disabled). -/
theorem c3_echo_buffer_bound {Frame : Type} (enabled : Bool) (trail_count : ℕ)
    (buf : List Frame) (frame : Frame) (h : buf.length ≤ trail_count + 2) :
    (echoBufferStep enabled trail_count buf frame).length ≤ trail_count + 2 ∧
    echoBufferStep false trail_count buf frame = [] ∧
    (buf.length = trail_count + 2 →
      echoBufferStep true trail_count buf frame = buf.tail ++ [frame]) := by
  refine ⟨?_, rfl, fun hfull => ?_⟩
  · cases enabled with
    | false => simp [echoBufferStep]
    | true =>
      simp only [echoBufferStep, if_true]
      split
      · simpa using h
      · next hlt =>
        simp only [List.length_append, List.length_singleton] at hlt ⊢
        omega
  · have hlt : trail_count + 2 < (buf ++ [frame]).length := by
      simp [hfull]
    simp only [echoBufferStep, if_true, if_pos hlt]
    rw [List.drop_append_of_le_length (by omega), List.drop_one]

/-- C3 witness: a full buffer of three frames at trail_count = 1 evicts the
oldest frame on push. -/
theorem c3_echo_buffer_bound_witness :
    echoBufferStep true 1 [1, 2, 3] (9 : ℕ) = [2, 3, 9] :=
  (c3_echo_buffer_bound true 1 [1, 2, 3] 9 (by simp)).2.2 (by simp)

/-- C4: `ParticleSystem.update` never increases the particle count, and every
particle whose age has reached its lifetime is removed — in particular the
system is empty once every particle has expired. -/
theorem c4_particle_update_cull (time dt : ℚ) (particles : List Particle) :
    (particleSystemUpdate time dt particles).length ≤ particles.length ∧
    (∀ q ∈ particleSystemUpdate time dt particles,
      time - q.birth_time < q.lifetime) ∧
    ((∀ p ∈ particles, p.lifetime ≤ time - p.birth_time) →
      particleSystemUpdate time dt particles = []) := by
  refine ⟨?_, fun q hq => ?_, fun hall => ?_⟩
  · calc (particleSystemUpdate time dt particles).length
        = (particles.filter _).length := List.length_map _ _
      _ ≤ particles.length := List.length_filter_le _ _
  · obtain ⟨p, hp, rfl⟩ := List.mem_map.mp hq
    have := List.of_mem_filter hp
    simpa [updateParticle] using of_decide_eq_true this
  · have : particles.filter (fun p => decide (time - p.birth_time < p.lifetime)) = [] := by
      apply List.filter_eq_nil_iff.mpr
      intro p hp
      simpa using not_lt.mpr (hall p hp)
    simp [particleSystemUpdate, this]

/-- C4 witness: a single particle with lifetime 1 born at t = 0 is gone after
an update at t = 1.1. -/
theorem c4_particle_update_cull_witness :
    particleSystemUpdate (11/10) (1/30)
      [⟨0, 0, 0, 0, 5, (255, 200, 100), 1, 0, 1⟩] = [] := by
  have h := c4_particle_update_cull (11/10) (1/30)
    [⟨0, 0, 0, 0, 5, (255, 200, 100), 1, 0, 1⟩]
  refine h.2.2 ?_
  intro p hp
  rw [List.mem_singleton] at hp
  subst hp
  norm_num

/-- C5 counterexample: the glitch extraction threshold is NOT inclusive.
With the glitch toggle enabled at intensity 1 and a single onset whose
strength exactly equals the 0.7 threshold, the extracted trigger list is
empty, although an inclusive threshold would have to include the event. -/
theorem c5_glitch_threshold_not_inclusive :
    glitchTriggers ⟨true, 1⟩ ⟨30, [], [], [2], [0.7]⟩ = [] := by
  norm_num [glitchTriggers, List.filter, glitchLoop]

/-- C5 amended: beat-driven extractions (glow, outline, burst, flares,
ripple, strobe) have inclusive thresholds — an event whose strength exactly
equals the effect's threshold is included — while the glitch onset threshold
0.7 is exclusive: onsets at or below 0.7 never produce a glitch trigger. -/
theorem c5_threshold_policy_amended (tog : EffectToggle) (af : AudioFeatures)
    (t s : ℚ) (henabled : tog.enabled = true)
    (hmem : (t, s) ∈ af.beat_times.zip af.beat_strengths) :
    (s = 0.3 * (1 - tog.intensity) →
      (t, s * tog.intensity) ∈ glowTriggers tog af) ∧
    (s = 0.4 → (t, s * tog.intensity) ∈ outlineTriggers tog af) ∧
    (s = 0.5 → (t, s * tog.intensity) ∈ burstTriggers tog af) ∧
    (s = 0.6 → (t, s * tog.intensity) ∈ flareTriggers tog af) ∧
    (s = 0.5 → (t, s * tog.intensity) ∈ rippleTriggers tog af) ∧
    (s = 0.8 → t ∈ strobeTriggers tog af) ∧
    ((∀ str ∈ af.onset_strengths, str ≤ 0.7) → glitchTriggers tog af = []) := by
  refine ⟨fun hs => ?_, fun hs => ?_, fun hs => ?_, fun hs => ?_, fun hs => ?_,
    fun hs => ?_, fun hall => ?_⟩
  · simp only [glowTriggers, henabled, if_true]
    exact List.mem_filterMap.mpr ⟨(t, s), hmem, by rw [if_pos (le_of_eq hs.symm)]⟩
  · simp only [outlineTriggers, henabled, if_true]
    exact List.mem_filterMap.mpr ⟨(t, s), hmem, by rw [if_pos (le_of_eq hs.symm)]⟩
  · simp only [burstTriggers, henabled, if_true]
    exact List.mem_filterMap.mpr ⟨(t, s), hmem, by rw [if_pos (le_of_eq hs.symm)]⟩
  · simp only [flareTriggers, henabled, if_true]
    exact List.mem_filterMap.mpr ⟨(t, s), hmem, by rw [if_pos (le_of_eq hs.symm)]⟩
  · simp only [rippleTriggers, henabled, if_true]
    exact List.mem_filterMap.mpr ⟨(t, s), hmem, by rw [if_pos (le_of_eq hs.symm)]⟩
  · simp only [strobeTriggers, henabled, if_true]
    exact List.mem_filterMap.mpr ⟨(t, s), hmem, by rw [if_pos (le_of_eq hs.symm)]⟩
  · simp only [glitchTriggers, henabled, if_true]
    have hnil : (af.onset_times.zip af.onset_strengths).filter
        (fun ts => decide (0.7 < ts.2)) = [] := by
      apply List.filter_eq_nil_iff.mpr
      intro ts hts
      have h2 := (List.of_mem_zip hts).2
      simpa using not_lt.mpr (hall ts.2 h2)
    rw [hnil, glitchLoop]

/-- C5 witness: a beat of strength exactly 0.5 is picked up by the particle
burst extraction (inclusive threshold), at toggle intensity 1. -/
theorem c5_threshold_policy_amended_witness :
    ((2 : ℚ), (0.5 : ℚ) * 1) ∈ burstTriggers ⟨true, 1⟩ ⟨30, [2], [0.5], [], []⟩ :=
  ((c5_threshold_policy_amended ⟨true, 1⟩ ⟨30, [2], [0.5], [], []⟩ 2 0.5 rfl
    (by simp)).2.2.1) rfl

/-- The enumerate-and-filter loop of the glitch block selects exactly every
stride-th element: it agrees with the countdown-based reference selection. -/
theorem glitchLoop_eq_takeEveryStride (I : ℚ) (k : ℕ) (hk : 1 ≤ k)
    (l : List (ℚ × ℚ)) : ∀ (i r : ℕ), r = (k - i % k) % k →
    glitchLoop I k i l =
      (takeEveryStride k r l).map (fun ts => (ts.1, 0.05 + ts.2 * 0.1, ts.2 * I)) := by
  induction l with
  | nil => intro i r hr; simp [glitchLoop, takeEveryStride]
  | cons a rest ih =>
    intro i r hr
    have hm : i % k < k := Nat.mod_lt _ (by omega)
    by_cases hi : i % k = 0
    · rw [hi] at hr
      simp only [Nat.sub_zero, Nat.mod_self] at hr
      subst hr
      rw [glitchLoop, takeEveryStride, if_pos hi, if_pos rfl, List.map_cons]
      refine congrArg _ (ih (i + 1) (k - 1) ?_)
      have hik : k * (i / k) + 1 = i + 1 := by
        have := Nat.div_add_mod i k
        omega
      have h1 : (i + 1) % k = 1 % k := by
        rw [← hik, Nat.mul_add_mod]
      rcases Nat.eq_or_lt_of_le hk with h | h
      · rw [h1, ← h]
      · have h2 : (1 : ℕ) % k = 1 := Nat.mod_eq_of_lt (by omega)
        rw [h1, h2, Nat.mod_eq_of_lt (by omega)]
    · have hr' : r = k - i % k := by
        rw [hr]; exact Nat.mod_eq_of_lt (by omega)
      have hrne : r ≠ 0 := by omega
      rw [glitchLoop, takeEveryStride, if_neg hi, if_neg hrne]
      refine ih (i + 1) (r - 1) ?_
      have h2k : 2 ≤ k := by omega
      have hik : k * (i / k) + (i % k + 1) = i + 1 := by
        have := Nat.div_add_mod i k
        omega
      have h1 : (i + 1) % k = (i % k + 1) % k := by
        rw [← hik, Nat.mul_add_mod]
      by_cases hlast : i % k + 1 = k
      · rw [h1, hlast, Nat.mod_self, Nat.sub_zero, Nat.mod_self]
        omega
      · have hin : (i % k + 1) % k = i % k + 1 := Nat.mod_eq_of_lt (by omega)
        rw [h1, hin, Nat.mod_eq_of_lt (by omega)]
        omega

/-- C6 counterexample: the stride is NOT `max(1, round(4 − 3·intensity))`.
At intensity 0.1 the code truncates `int(3.7) = 3` while rounding gives 4,
so on four strong onsets the code emits two triggers (indices 0 and 3) but
the claimed rounded stride would emit one (index 0 only). -/
theorem c6_round_stride_counterexample :
    glitchTriggers ⟨true, 1/10⟩ ⟨30, [], [], [0, 1, 2, 3], [0.8, 0.8, 0.8, 0.8]⟩ ≠
    glitchTriggersRoundSpec ⟨true, 1/10⟩
      ⟨30, [], [], [0, 1, 2, 3], [0.8, 0.8, 0.8, 0.8]⟩ := by
  intro hcontra
  have hs1 : glitchStride (1/10) = 3 := by
    norm_num [glitchStride, pyTrunc]
    rfl
  have hs2 : glitchStrideRound (1/10) = 4 := by
    norm_num [glitchStrideRound, round_eq]
    rfl
  have hlen := congrArg List.length hcontra
  norm_num [glitchTriggers, glitchTriggersRoundSpec, hs1, hs2,
    glitchLoop, List.filter] at hlen

/-- C6 amended: with the glitch toggle enabled, the above-threshold onsets
are down-sampled by the truncated stride `max(1, int(4 − 3·intensity))`
(keeping the first and every stride-th later event), and each selected
trigger carries duration `0.05 + strength·0.1` seconds and strength scaled
by the toggle intensity. -/
theorem c6_glitch_downsampling_amended (tog : EffectToggle) (af : AudioFeatures) :
    glitchTriggers tog af = glitchTriggersAmended tog af := by
  unfold glitchTriggers glitchTriggersAmended
  split
  · exact glitchLoop_eq_takeEveryStride _ _ (le_max_left 1 _) _ 0 0
      (by simp [Nat.mod_self])
  · rfl

/-- C7 counterexample: the particle lifetime jitter is NOT ±15% of the
requested value.  With requested lifetime 1 and the lifetime jitter draw at
0, the assigned lifetime is 0.7, outside [0.85, 1.15]. -/
theorem c7_lifetime_jitter_counterexample :
    (spawnParticleFromBounds (1/4) (1/4) (1/2) (1/2) 3 12 200 1 0 1080 1920
        1 0 0 0 0 0 (255, 200, 100)).lifetime = 0.7 ∧
    ¬(0.85 ≤ (spawnParticleFromBounds (1/4) (1/4) (1/2) (1/2) 3 12 200 1 0 1080 1920
        1 0 0 0 0 0 (255, 200, 100)).lifetime) := by
  constructor <;> norm_num [spawnParticleFromBounds]

/-- C7 amended: each spawned particle's lifetime is jittered between 70% and
100% of the requested lifetime — `lifetime * (0.7 + rand * 0.3)` with the
uniform draw in [0, 1) — so it lies in [0.7·L, L). -/
theorem c7_lifetime_jitter_amended
    (bx by_ bw bh slo shi speed lifetime time w h cosA sinA rV rS rA rL : ℚ)
    (c : Color) (h0 : 0 ≤ rL) (h1 : rL < 1) (hL : 0 < lifetime) :
    0.7 * lifetime ≤
      (spawnParticleFromBounds bx by_ bw bh slo shi speed lifetime time w h
        cosA sinA rV rS rA rL c).lifetime ∧
    (spawnParticleFromBounds bx by_ bw bh slo shi speed lifetime time w h
        cosA sinA rV rS rA rL c).lifetime < lifetime := by
  simp only [spawnParticleFromBounds]
  constructor
  · nlinarith
  · nlinarith

/-- C7 witness: requested lifetime 2, jitter draw 1/2 gives lifetime 1.7,
inside [1.4, 2). -/
theorem c7_lifetime_jitter_amended_witness :
    0.7 * 2 ≤ (spawnParticleFromBounds (1/4) (1/4) (1/2) (1/2) 3 12 200 2 0 1080 1920
        1 0 0 0 0 (1/2) (255, 200, 100)).lifetime ∧
    (spawnParticleFromBounds (1/4) (1/4) (1/2) (1/2) 3 12 200 2 0 1080 1920
        1 0 0 0 0 (1/2) (255, 200, 100)).lifetime < 2 :=
  c7_lifetime_jitter_amended (1/4) (1/4) (1/2) (1/2) 3 12 200 2 0 1080 1920
    1 0 0 0 0 (1/2) (255, 200, 100) (by norm_num) (by norm_num) (by norm_num)

/-- C8 counterexample: frames are NOT determined by the particle-system
(python `random`) seed alone.  With film grain enabled, the same image and
python stream but different NumPy noise draws produce different pixels,
because `apply_film_grain` samples the separate, unseeded NumPy generator. -/
theorem c8_numpy_noise_counterexample :
    grainLayerOutput true [100] ⟨[], [0]⟩ ≠ grainLayerOutput true [100] ⟨[], [10]⟩ := by
  simp [grainLayerOutput, applyFilmGrain, clip255, List.zip]

/-- C8 amended: two runs produce identical frames given the particle-system
seed, provided the film-grain NumPy noise is also identical whenever the
film-grain layer is enabled (in particular whenever film grain is disabled,
the NumPy stream is irrelevant). -/
theorem c8_determinism_amended (grainEnabled : Bool) (img : List ℤ)
    (r1 r2 : FrameRandomness)
    (hnp : grainEnabled = true → r1.npStream = r2.npStream) :
    grainLayerOutput grainEnabled img r1 = grainLayerOutput grainEnabled img r2 := by
  cases grainEnabled with
  | false => rfl
  | true => simp [grainLayerOutput, applyFilmGrain, hnp rfl]

/-- C8 witness: with film grain disabled, runs differing only in NumPy noise
agree. -/
theorem c8_determinism_amended_witness :
    grainLayerOutput false [100, 200] ⟨[1/2], [3]⟩ =
      grainLayerOutput false [100, 200] ⟨[1/2], [7]⟩ :=
  c8_determinism_amended false [100, 200] ⟨[1/2], [3]⟩ ⟨[1/2], [7]⟩
    (fun hcontra => by simp at hcontra)

/-- C9: a non-zero encoder exit status always fails the render job (the
outcome is never the success value), and when the encoder produced stderr
text the raised message carries that text verbatim as a suffix. -/
theorem c9_encoder_failure_surfaced (result : ProcResult) (output_path : String)
    (h : result.returncode ≠ 0) :
    (∀ p, ffmpegOutcome result output_path ≠ Except.ok p) ∧
    (result.stderr ≠ "" →
      ffmpegOutcome result output_path =
        Except.error (("FFmpeg failed (exit code " ++ toString result.returncode
          ++ "): ") ++ result.stderr)) ∧
    (result.stderr = "" → result.stdout ≠ "" →
      ffmpegOutcome result output_path =
        Except.error (("FFmpeg failed (exit code " ++ toString result.returncode
          ++ "): ") ++ result.stdout)) := by
  refine ⟨fun p => ?_, fun hs => ?_, fun hs ho => ?_⟩
  · simp [ffmpegOutcome, if_pos h]
  · simp only [ffmpegOutcome, if_pos h, if_pos hs]
  · simp only [ffmpegOutcome, if_pos h, hs, ite_not, if_pos rfl, if_neg ho]
    simp [ho]

/-- C9 witness: exit code 1 with stderr "boom" raises and carries the text. -/
theorem c9_encoder_failure_surfaced_witness :
    ffmpegOutcome ⟨1, "", "boom"⟩ "out.mp4" ≠ Except.ok "out.mp4" :=
  (c9_encoder_failure_surfaced ⟨1, "", "boom"⟩ "out.mp4" (by decide)).1 "out.mp4"

/-- C10: every active-burst descriptor the evaluator emits lacks the
bounds_x/bounds_y/bounds_w/bounds_h keys, so the compositor's `dict.get`
reads fall back to the defaults (0.25, 0.25, 0.5, 0.5) regardless of the
parameters' subject bounds, and the de-duplication key reduces to
(0.25, 0.25, list index). -/
theorem c10_burst_default_bounds (burst : ParticleBurstParams) (time : ℚ)
    (b : List (String × ℚ)) (i : ℕ) (hb : b ∈ particleBurstsAt burst time) :
    burstSpawnBounds b = (0.25, 0.25, 0.5, 0.5) ∧
    burstDedupKey b i = (0.25, 0.25, i) := by
  rw [particleBurstsAt] at hb
  by_cases he : burst.enabled
  · rw [if_pos he] at hb
    obtain ⟨tr, _, hf⟩ := List.mem_filterMap.mp hb
    by_cases hw : (0:ℚ) ≤ time - tr.1 ∧ time - tr.1 < burst.lifetime
    · rw [if_pos hw] at hf
      rw [← Option.some_inj.mp hf]
      exact ⟨rfl, rfl⟩
    · rw [if_neg hw] at hf
      exact absurd hf (Option.noConfusion)
  · rw [if_neg he] at hb
    exact absurd hb (List.not_mem_nil b)

/-- C10 witness: a burst trigger at t = 0 queried at t = 0 with non-default
origin still yields default spawn bounds and key (0.25, 0.25, 0). -/
theorem c10_burst_default_bounds_witness :
    burstSpawnBounds (activeBurstEntry 0 (1/2) (3/5) (3/5)) = (0.25, 0.25, 0.5, 0.5) ∧
    burstDedupKey (activeBurstEntry 0 (1/2) (3/5) (3/5)) 0 = (0.25, 0.25, 0) :=
  c10_burst_default_bounds
    ⟨true, 1, 50, [(255, 200, 100)], (3, 12), 200, 1, [(0, 1/2)], 3/5, 3/5⟩ 0
    (activeBurstEntry 0 (1/2) (3/5) (3/5)) 0
    (by norm_num [particleBurstsAt, activeBurstEntry])

end VTG
